import Mathlib

set_option maxRecDepth 100000

/-!
# Verification of the claim validation engine

Shallow embedding of `claim_processing_automation/utils/validators.py`:
the `ValidationResult` accumulator, the `ClaimValidator` sub-validators and
the `validate_claim` orchestration, together with theorems checking the
specification's claims about them.

Modelling conventions:
* Python values arriving in the claim-data map are modelled by `Value`
  (strings, numbers, booleans, `None`); a missing key behaves as `None`,
  matching `dict.get`.
* Python floats are modelled as exact rationals (`ℚ`).  All constants in the
  source (0.1, 0.3, 0.5, 0.05, thresholds) are treated exactly; the claims
  verified here concern orderings, clamping and membership, which are
  insensitive to the binary-float representation of these constants.
* Exceptions that can escape a sub-validator (`TypeError`/`AttributeError`
  from `len()`/`.lower()`/`.upper()` on non-strings, `ZeroDivisionError`
  from float division) are modelled by the `Res` result type carrying the
  partially mutated accumulator, mirroring Python's in-place mutation
  semantics.  Exceptions caught locally in the source (`try`/`except` around
  `float()`, `int()`, `strptime`) are modelled by `Option`-returning
  coercions.
* External library calls (`email_validator`, `phonenumbers`) are modelled as
  black-box functions supplied in a `Libs` record, as the spec directs.
-/

/-- A loosely-typed Python value as it arrives in the claim-data map. -/
inductive Value where
  | vStr (s : String)
  | vNum (x : ℚ)
  | vBool (b : Bool)
  | vNone
deriving DecidableEq, Repr

/-- The input field map (`claim_data`): an open key-to-value map. -/
abbrev ClaimData := List (String × Value)

/-- Embeds `claim_data.get(k)`: a missing key yields Python `None`. -/
def getVal (d : ClaimData) (k : String) : Value :=
  match d.lookup k with
  | some v => v
  | none => Value.vNone

/-- Python truthiness of a value (`if value:`). -/
def Value.truthy : Value → Bool
  | .vStr s => !s.data.isEmpty
  | .vNum x => decide (x ≠ 0)
  | .vBool b => b
  | .vNone => false

/-- Python whitespace characters recognised by `str.strip()` / `\s`. -/
def isPySpace (c : Char) : Bool :=
  c == ' ' || c == '\t' || c == '\n' || c == '\r' ||
  c == Char.ofNat 11 || c == Char.ofNat 12

/-- Embeds `str.strip()` on a character list. -/
def pyStrip (l : List Char) : List Char :=
  ((l.dropWhile isPySpace).reverse.dropWhile isPySpace).reverse

/-- Digit list to the natural number it denotes (most significant first). -/
def digitsToNat (l : List Char) : Nat :=
  l.foldl (fun acc c => 10 * acc + (c.toNat - '0'.toNat)) 0

/-- Parse a non-empty all-digit component of width between 1 and `w`
    (Python `strptime` widths: `%Y` up to 4 digits, `%m`/`%d` up to 2). -/
def parseComp (w : Nat) (l : List Char) : Option Nat :=
  if l.length ≥ 1 && l.length ≤ w && l.all Char.isDigit then
    some (digitsToNat l)
  else none

/-- Split a character list on a separator character. -/
def splitChar (sep : Char) : List Char → List (List Char)
  | [] => [[]]
  | c :: cs =>
    match splitChar sep cs with
    | [] => [[]]
    | g :: gs => if c = sep then [] :: g :: gs else (c :: g) :: gs

/-- A calendar date (proleptic Gregorian, year ≥ 1), as `datetime.date`. -/
structure Date where
  year : Nat
  month : Nat
  day : Nat
deriving DecidableEq, Repr

/-- Gregorian leap-year test. -/
def isLeap (y : Nat) : Bool :=
  y % 4 == 0 && (y % 100 != 0 || y % 400 == 0)

/-- Days in a month. -/
def daysInMonth (y m : Nat) : Nat :=
  if m == 2 then (if isLeap y then 29 else 28)
  else if m == 4 || m == 6 || m == 9 || m == 11 then 30
  else 31

/-- Cumulative days before month `m` in a non-leap year. -/
def cumDays (m : Nat) : Nat :=
  match m with
  | 1 => 0 | 2 => 31 | 3 => 59 | 4 => 90 | 5 => 120 | 6 => 151
  | 7 => 181 | 8 => 212 | 9 => 243 | 10 => 273 | 11 => 304 | 12 => 334
  | _ => 0

/-- Day number of a date counting from 1 = January 1 of year 1
    (`datetime.date.toordinal`). -/
def dayNumber (dt : Date) : Nat :=
  let p := dt.year - 1
  365 * p + p / 4 + p / 400 + cumDays dt.month +
    (if dt.month ≥ 3 && isLeap dt.year then 1 else 0) + dt.day - p / 100

/-- Python `date.weekday()`: Monday = 0, ..., Sunday = 6.
    January 1 of year 1 is a Monday. -/
def pyWeekday (dt : Date) : Nat :=
  (dayNumber dt + 6) % 7

/-- Build a date after `strptime`-style range validation. -/
def mkDateChecked (y m d : Nat) : Option Date :=
  if 1 ≤ y && y ≤ 9999 && 1 ≤ m && m ≤ 12 && 1 ≤ d && d ≤ daysInMonth y m then
    some ⟨y, m, d⟩
  else none

/-- Embeds `datetime.strptime(s, "%Y-%m-%d")`. -/
def parseYmdDash (s : String) : Option Date :=
  match splitChar '-' s.data with
  | [ys, ms, ds] => do
    let y ← parseComp 4 ys
    let m ← parseComp 2 ms
    let d ← parseComp 2 ds
    mkDateChecked y m d
  | _ => none

/-- Embeds `datetime.strptime(s, "%m/%d/%Y")`. -/
def parseMdy (s : String) : Option Date :=
  match splitChar '/' s.data with
  | [ms, ds, ys] => do
    let m ← parseComp 2 ms
    let d ← parseComp 2 ds
    let y ← parseComp 4 ys
    mkDateChecked y m d
  | _ => none

/-- Embeds `datetime.strptime(s, "%d/%m/%Y")`. -/
def parseDmy (s : String) : Option Date :=
  match splitChar '/' s.data with
  | [ds, ms, ys] => do
    let d ← parseComp 2 ds
    let m ← parseComp 2 ms
    let y ← parseComp 4 ys
    mkDateChecked y m d
  | _ => none

/-- Embeds `datetime.strptime(s, "%Y/%m/%d")`. -/
def parseYmdSlash (s : String) : Option Date :=
  match splitChar '/' s.data with
  | [ys, ms, ds] => do
    let y ← parseComp 4 ys
    let m ← parseComp 2 ms
    let d ← parseComp 2 ds
    mkDateChecked y m d
  | _ => none

/-- The date-format loop of `_validate_incident_information`: the formats
    `["%Y-%m-%d", "%m/%d/%Y", "%d/%m/%Y", "%Y/%m/%d"]` are tried in order and
    the first successful parse wins. -/
def parseClaimDate (s : String) : Option Date :=
  match parseYmdDash s with
  | some dt => some dt
  | none =>
    match parseMdy s with
    | some dt => some dt
    | none =>
      match parseDmy s with
      | some dt => some dt
      | none => parseYmdSlash s

/-- Left-pad a digit list with zeros to width `w`. -/
def padZero (w : Nat) (l : List Char) : List Char :=
  List.replicate (w - l.length) '0' ++ l

/-- Embeds `date.strftime("%Y-%m-%d")`: the canonical rendering of a date. -/
def formatDate (dt : Date) : String :=
  String.mk (padZero 4 (Nat.toDigits 10 dt.year) ++ '-' ::
    (padZero 2 (Nat.toDigits 10 dt.month) ++ '-' ::
      padZero 2 (Nat.toDigits 10 dt.day)))

/-- Truncate a rational toward zero: Python `int()` on a float. -/
def ratTrunc (x : ℚ) : ℤ :=
  if x < 0 then -((-x).num / ((-x).den : ℤ)) else x.num / (x.den : ℤ)

/-- Parse a decimal float string as Python `float(s)` would (after
    stripping whitespace): optional sign, digits with an optional single
    decimal point, at least one digit.  Exponent/`inf`/`nan` forms are not
    modelled; no verified claim depends on them. -/
def parseFloatChars (l : List Char) : Option ℚ :=
  let t := pyStrip l
  let (sign, body) :=
    match t with
    | '-' :: rest => ((-1 : ℚ), rest)
    | '+' :: rest => ((1 : ℚ), rest)
    | _ => ((1 : ℚ), t)
  match splitChar '.' body with
  | [ip] =>
    if !ip.isEmpty && ip.all Char.isDigit then
      some (sign * (digitsToNat ip : ℚ))
    else none
  | [ip, fp] =>
    if (!ip.isEmpty || !fp.isEmpty) && ip.all Char.isDigit && fp.all Char.isDigit then
      some (sign * ((digitsToNat ip : ℚ) + (digitsToNat fp : ℚ) / (10 ^ fp.length : ℚ)))
    else none
  | _ => none

/-- Python `float(value)`; `none` models the `ValueError`/`TypeError` that the
    source catches locally wherever this coercion is used. -/
def toFloat : Value → Option ℚ
  | .vNum x => some x
  | .vBool b => some (if b then 1 else 0)
  | .vStr s => parseFloatChars s.data
  | .vNone => none

/-- Parse an integer string as Python `int(s)`: optional sign, digits only. -/
def parseIntChars (l : List Char) : Option ℤ :=
  let t := pyStrip l
  let (sign, body) :=
    match t with
    | '-' :: rest => ((-1 : ℤ), rest)
    | '+' :: rest => ((1 : ℤ), rest)
    | _ => ((1 : ℤ), t)
  if !body.isEmpty && body.all Char.isDigit then
    some (sign * (digitsToNat body : ℤ))
  else none

/-- Python `int(value)`; `none` models the locally caught
    `ValueError`/`TypeError`. -/
def toInt : Value → Option ℤ
  | .vNum x => some (ratTrunc x)
  | .vBool b => some (if b then 1 else 0)
  | .vStr s => parseIntChars s.data
  | .vNone => none

/-- Python `needle in hay` for strings, on character lists. -/
def containsSub (hay needle : List Char) : Bool :=
  (List.range (hay.length + 1)).any (fun i => needle.isPrefixOf (hay.drop i))

/-- Embeds `str.lower()` on a character list. -/
def lowerChars (l : List Char) : List Char := l.map Char.toLower

/-- Embeds `str.upper()` on a character list. -/
def upperChars (l : List Char) : List Char := l.map Char.toUpper

/-- Embeds `v is not None and str(v).strip()` as a truthiness test: `str` of a
    number or boolean is never blank, so only `None` and blank strings fail. -/
def strNonBlank : Value → Bool
  | .vNone => false
  | .vStr s => !(pyStrip s.data).isEmpty
  | .vNum _ => true
  | .vBool _ => true

/-- An `{field, message}` entry of the `errors`/`warnings` lists. -/
structure FieldMessage where
  field : String
  message : String
deriving DecidableEq, Repr

/-- An entry of the `fraud_indicators` list. -/
structure FraudEntry where
  indicator : String
  severity : String
  details : String
deriving DecidableEq, Repr

/-- A value of the `corrections` map: either an `{original, corrected}` pair,
    or the synthetic `risk_assessment` record built by `_assess_risk`. -/
inductive CorrVal where
  | pair (original corrected : Value)
  | riskMeta (riskFactors : List String) (overallRisk recommendedAction : String)
deriving DecidableEq, Repr

/-- The `ValidationResult` accumulator (`validators.py` lines 14-60). -/
structure ValidationResult where
  is_valid : Bool
  errors : List FieldMessage
  warnings : List FieldMessage
  corrections : List (String × CorrVal)
  risk_score : ℚ
  fraud_indicators : List FraudEntry
deriving DecidableEq, Repr

/-- Embeds `ValidationResult.__init__`. -/
def ValidationResult.init : ValidationResult :=
  { is_valid := true, errors := [], warnings := [], corrections := [],
    risk_score := 0, fraud_indicators := [] }

/-- Embeds `ValidationResult.add_error`. -/
def addError (r : ValidationResult) (field message : String) : ValidationResult :=
  { r with is_valid := false, errors := r.errors ++ [⟨field, message⟩] }

/-- Embeds `ValidationResult.add_warning`. -/
def addWarning (r : ValidationResult) (field message : String) : ValidationResult :=
  { r with warnings := r.warnings ++ [⟨field, message⟩] }

/-- Embeds `corrections[field] = value`: dict overwrite, modelled as erase-then-append
    (lookup-equivalent to Python's in-place update). -/
def setCorr (l : List (String × CorrVal)) (k : String) (v : CorrVal) :
    List (String × CorrVal) :=
  l.filter (fun p => !(p.1 == k)) ++ [(k, v)]

/-- Embeds `ValidationResult.add_correction`. -/
def addCorrection (r : ValidationResult) (field : String) (original corrected : Value) :
    ValidationResult :=
  { r with corrections := setCorr r.corrections field (.pair original corrected) }

/-- The severity-to-score dictionary lookup
    `{"low": 0.1, "medium": 0.3, "high": 0.5}.get(severity, 0.1)`. -/
def severityScore (s : String) : ℚ :=
  if s == "low" then 1/10
  else if s == "medium" then 3/10
  else if s == "high" then 1/2
  else 1/10

/-- Embeds `ValidationResult.add_fraud_indicator`: appends the indicator and adds the
    severity-keyed amount to `risk_score`. -/
def addFraudIndicator (r : ValidationResult) (indicator severity details : String) :
    ValidationResult :=
  { r with fraud_indicators := r.fraud_indicators ++ [⟨indicator, severity, details⟩],
           risk_score := r.risk_score + severityScore severity }

/-- The serialized dictionary returned by `ValidationResult.to_dict`;
    `validation_timestamp` (from `datetime.now()`) is a parameter of the model. -/
structure OutDict where
  is_valid : Bool
  errors : List FieldMessage
  warnings : List FieldMessage
  corrections : List (String × CorrVal)
  risk_score : ℚ
  fraud_indicators : List FraudEntry
  validation_timestamp : String
deriving DecidableEq, Repr

/-- Embeds `ValidationResult.to_dict`: the serialized snapshot; `risk_score` is read
    through `min(self.risk_score, 1.0)`. -/
def toDict (r : ValidationResult) (now : String) : OutDict :=
  { is_valid := r.is_valid, errors := r.errors, warnings := r.warnings,
    corrections := r.corrections, risk_score := min r.risk_score 1,
    fraud_indicators := r.fraud_indicators, validation_timestamp := now }

/-- Result of running a sub-validator: either normal completion or an
    uncaught Python exception with message `msg`; in both cases the
    accumulator holds every mutation made before the exception (Python
    mutates `result` in place). -/
inductive Res where
  | ok (r : ValidationResult)
  | exn (msg : String) (r : ValidationResult)
deriving DecidableEq, Repr

/-- The accumulator state regardless of how the sub-validator finished. -/
def Res.state : Res → ValidationResult
  | .ok r => r
  | .exn _ r => r

/-- Sequence two sub-validator steps: a raised exception skips the rest
    (it propagates to the orchestration boundary). -/
def Res.andThen (x : Res) (f : ValidationResult → Res) : Res :=
  match x with
  | .ok r => f r
  | .exn m r => .exn m r

/-- Static configuration read by the validator (`config.settings`), plus the
    clock values the source obtains from `date.today()` / `datetime.now()`. -/
structure Config where
  max_claim_amount : ℚ
  auto_approve_threshold : ℚ
  manual_review_threshold : ℚ
  today : Date
  current_year : ℤ
deriving DecidableEq, Repr

/-- The default settings (`settings.py`): max 100000, auto-approve 1000,
    manual review 50000; the clock fixed at an arbitrary concrete instant. -/
def defaultConfig : Config :=
  { max_claim_amount := 100000, auto_approve_threshold := 1000,
    manual_review_threshold := 50000,
    today := ⟨2025, 6, 16⟩, current_year := 2025 }

/-- Result of `phonenumbers.parse`: validity flag and the canonical national
    formatting. -/
structure PhoneObj where
  isValidNumber : Bool
  nationalFormat : String
deriving DecidableEq, Repr

/-- External validation libraries (`email_validator`, `phonenumbers`),
    black boxes per the spec.  `validateEmailNorm` returns the normalized
    email or an `EmailNotValidError` message; `phoneParse` returns `none` on
    `NumberParseException`. -/
structure Libs where
  validateEmailNorm : String → Except String String
  phoneParse : String → Option PhoneObj

/-- Trivial library instance used for concrete runs that carry no email or
    phone fields (those code paths are then never reached). -/
def dummyLibs : Libs :=
  { validateEmailNorm := fun s => .ok s, phoneParse := fun _ => none }

/-- The required-field test of `_validate_required_fields`:
    `not value or (isinstance(value, str) and not value.strip())`.
    Note the first disjunct is Python truthiness, so numeric `0`, `False`
    and the empty string all count as missing. -/
def reqBad (v : Value) : Bool :=
  !v.truthy || (match v with | .vStr s => (pyStrip s.data).isEmpty | _ => false)

/-- The `required_fields` list. -/
def requiredFieldsList : List String :=
  ["claimant_name", "incident_date", "claim_amount", "incident_description"]

/-- The error message for a missing required field. -/
def reqMsg (f : String) : String :=
  "Required field " ++ f ++ " is missing or empty"

/-- Embeds `ClaimValidator._validate_required_fields`. -/
def validate_required_fields (d : ClaimData) (r : ValidationResult) : ValidationResult :=
  requiredFieldsList.foldl
    (fun r f => if reqBad (getVal d f) then addError r f (reqMsg f) else r) r

/-- The name pattern of the regex `[a-zA-Z\s\-\.\x27]+` (full match,
    non-empty): letters, whitespace, hyphen, period, apostrophe. -/
def nameCharsOk (l : List Char) : Bool :=
  !l.isEmpty &&
    l.all (fun c => c.isAlpha || isPySpace c || c == '-' || c == '.' || c == Char.ofNat 39)

/-- The recurring `if value:` guard around code that calls a string method
    (`len()`, `.lower()`, `.upper()`, or a library parser) on the value: the
    body runs on a truthy string, a truthy non-string raises
    `TypeError`/`AttributeError` out of the sub-validator, and a falsy value
    skips the block. -/
def strGuard (v : Value) (msg : String)
    (body : String → ValidationResult → ValidationResult) (r : ValidationResult) : Res :=
  if v.truthy then
    match v with
    | .vStr s => Res.ok (body s r)
    | _ => Res.exn msg r
  else Res.ok r

/-- The same guard over two values with Python short-circuit evaluation:
    the string method is only reached when both are truthy. -/
def strGuard2 (v₁ v₂ : Value) (msg : String)
    (body : String → String → ValidationResult → ValidationResult) (r : ValidationResult) : Res :=
  if v₁.truthy && v₂.truthy then
    match v₁, v₂ with
    | .vStr a, .vStr b => Res.ok (body a b r)
    | _, _ => Res.exn msg r
  else Res.ok r

/-- The `if value:` plus `isinstance(value, str)` pattern: a truthy
    non-string is skipped silently. -/
def strOnly (v : Value) (body : String → ValidationResult → ValidationResult)
    (r : ValidationResult) : ValidationResult :=
  if v.truthy then
    match v with
    | .vStr s => body s r
    | _ => r
  else r

/-- Embeds `ClaimValidator._validate_personal_information`. -/
def validate_personal_information (libs : Libs) (d : ClaimData) (r : ValidationResult) : Res :=
  (strGuard (getVal d "claimant_name") "object has no len()"
    (fun s r =>
      if s.data.length < 2 then addError r "claimant_name" "Name is too short"
      else if s.data.length > 100 then addError r "claimant_name" "Name is too long"
      else if !nameCharsOk s.data then
        addWarning r "claimant_name" "Name contains unusual characters"
      else r) r).andThen fun r =>
  (strGuard (getVal d "claimant_email") "expected a string value"
    (fun s r =>
      match libs.validateEmailNorm s with
      | Except.ok e =>
        if e != s then addCorrection r "claimant_email" (.vStr s) (.vStr e) else r
      | Except.error msg =>
        addError r "claimant_email" ("Invalid email address: " ++ msg)) r).andThen fun r =>
  strGuard (getVal d "claimant_phone") "expected a string value"
    (fun s r =>
      match libs.phoneParse s with
      | none => addError r "claimant_phone" "Unable to parse phone number"
      | some p =>
        if !p.isValidNumber then addError r "claimant_phone" "Invalid phone number"
        else if p.nationalFormat != s then
          addCorrection r "claimant_phone" (.vStr s) (.vStr p.nationalFormat)
        else r) r

/-- The policy-number pattern `[A-Z0-9\-]+` (full match, non-empty),
    applied to the uppercased policy number. -/
def policyCharsOk (l : List Char) : Bool :=
  !l.isEmpty && l.all (fun c => c.isUpper || c.isDigit || c == '-')

/-- The `known_insurers` reference list. -/
def knownInsurers : List String :=
  ["State Farm", "GEICO", "Progressive", "Allstate", "USAA",
   "Liberty Mutual", "Farmers", "Nationwide", "American Family",
   "Travelers", "Auto-Owners", "AAA", "Esurance", "The General"]

/-- Embeds `ClaimValidator._validate_policy_information`. -/
def validate_policy_information (d : ClaimData) (r : ValidationResult) : Res :=
  (strGuard (getVal d "policy_number") "object has no len()"
    (fun s r =>
      if s.data.length < 5 then addError r "policy_number" "Policy number is too short"
      else if s.data.length > 50 then addError r "policy_number" "Policy number is too long"
      else if !policyCharsOk (upperChars s.data) then
        addWarning r "policy_number" "Policy number format is unusual"
      else r) r).andThen fun r =>
  strGuard (getVal d "insurance_company") "object has no attribute lower"
    (fun s r =>
      if !(knownInsurers.any fun ins =>
            containsSub (lowerChars s.data) (lowerChars ins.data)) then
        addWarning r "insurance_company" "Insurance company not in common list"
      else r) r

/-- The incident-date block of `_validate_incident_information`: parse
    against the ordered format list, then the future/age checks against
    `date.today()`, then the canonical-format correction.  The whole block is
    inside `isinstance(incident_date, str)`, so non-strings are skipped. -/
def incident_date_check (cfg : Config) (v : Value) (r : ValidationResult) : ValidationResult :=
  strOnly v
    (fun s r =>
      match parseClaimDate s with
      | none => addError r "incident_date" "Unable to parse incident date"
      | some dt =>
        let r :=
          if dayNumber dt > dayNumber cfg.today then
            addError r "incident_date" "Incident date cannot be in the future"
          else if dayNumber dt + 1825 < dayNumber cfg.today then
            addWarning r "incident_date" "Incident date is more than 5 years ago"
          else r
        if s != formatDate dt then
          addCorrection r "incident_date" (.vStr s) (.vStr (formatDate dt))
        else r) r

/-- Embeds `ClaimValidator._validate_incident_information`. -/
def validate_incident_information (cfg : Config) (d : ClaimData) (r : ValidationResult) : Res :=
  (Res.ok (incident_date_check cfg (getVal d "incident_date") r)).andThen fun r =>
  strGuard (getVal d "incident_description") "object has no len()"
    (fun s r =>
      if s.data.length < 10 then
        addWarning r "incident_description" "Incident description is very brief"
      else if s.data.length > 2000 then
        addWarning r "incident_description" "Incident description is unusually long"
      else r) r

/-- A character allowed by the VIN regex `[A-HJ-NPR-Z0-9]{17}` (after
    uppercasing): digits and uppercase letters other than I, O, Q. -/
def vinAllowedChar (c : Char) : Bool :=
  c.isDigit || (c.isUpper && !(c == 'I' || c == 'O' || c == 'Q'))

/-- The VIN charset/length regex applied to the uppercased VIN. -/
def vinCharsOk (l : List Char) : Bool :=
  l.length == 17 && l.all vinAllowedChar

/-- Embeds `ClaimValidator._validate_vin_checksum` (simplified in the source:
    length plus the I/O/Q exclusion). -/
def validate_vin_checksum (s : String) : Bool :=
  if s.data.length != 17 then false
  else if s.data.any (fun c => c.toUpper == 'I' || c.toUpper == 'O' || c.toUpper == 'Q') then
    false
  else true

/-- The vehicle-year block of `_validate_vehicle_information`; the `int()`
    coercion failure is caught locally. -/
def vehicle_year_check (cfg : Config) (v : Value) (r : ValidationResult) : ValidationResult :=
  if v.truthy then
    match toInt v with
    | some y =>
      if y < 1900 then addError r "vehicle_year" "Vehicle year is too old"
      else if y > cfg.current_year + 1 then
        addError r "vehicle_year" "Vehicle year cannot be in the future"
      else if y < cfg.current_year - 50 then
        addWarning r "vehicle_year" "Vehicle is very old (classic car?)"
      else r
    | none => addError r "vehicle_year" "Invalid vehicle year format"
  else r

/-- The VIN block of `_validate_vehicle_information` (source lines 254-264):
    length check, then charset check, then — only for a well-formed VIN —
    the checksum check, whose failure is a warning only. -/
def vin_check (s : String) (r : ValidationResult) : ValidationResult :=
  if s.data.length != 17 then
    addError r "vehicle_vin" "VIN must be exactly 17 characters"
  else if !vinCharsOk (upperChars s.data) then
    addError r "vehicle_vin" "VIN contains invalid characters"
  else if !validate_vin_checksum s then
    addWarning r "vehicle_vin" "VIN checksum validation failed"
  else r

/-- Embeds `ClaimValidator._validate_vehicle_information`. -/
def validate_vehicle_information (cfg : Config) (d : ClaimData) (r : ValidationResult) : Res :=
  (Res.ok (vehicle_year_check cfg (getVal d "vehicle_year") r)).andThen fun r =>
  (strGuard (getVal d "vehicle_vin") "object has no len()" vin_check r).andThen fun r =>
  strGuard (getVal d "license_plate") "object has no len()"
    (fun s r =>
      if s.data.length < 2 || s.data.length > 10 then
        addWarning r "license_plate" "License plate length is unusual"
      else r) r

/-- The claim-amount block of `_validate_financial_information` (source
    lines 276-289); the `float()` failure is caught locally. -/
def claim_amount_check (cfg : Config) (v : Value) (r : ValidationResult) : ValidationResult :=
  if v != Value.vNone then
    match toFloat v with
    | some amount =>
      if amount ≤ 0 then addError r "claim_amount" "Claim amount must be positive"
      else if amount > cfg.max_claim_amount then
        addError r "claim_amount" "Claim amount exceeds maximum allowed"
      else if amount > cfg.manual_review_threshold then
        addWarning r "claim_amount" "High value claim requires manual review"
      else r
    | none => addError r "claim_amount" "Invalid claim amount format"
  else r

/-- The estimated-damage consistency block of
    `_validate_financial_information` (source lines 292-309).  The float
    coercions are caught locally; the only uncaught exception is a
    `ZeroDivisionError` in the relative-discrepancy quotient, modelled
    explicitly by the guarded `Res.exn` branch. -/
def damage_consistency_check (d : ClaimData) (r : ValidationResult) : Res :=
  let est := getVal d "estimated_damage_amount"
  let ca := getVal d "claim_amount"
  if est != Value.vNone && ca != Value.vNone then
    match toFloat est, toFloat ca with
    | some est_val, some claim_val =>
      if est_val ≤ 0 then
        Res.ok (addError r "estimated_damage_amount" "Estimated damage must be positive")
      else if max est_val claim_val == 0 then
        Res.exn "float division by zero" r
      else if |est_val - claim_val| / max est_val claim_val > 1/2 then
        Res.ok (addWarning r "amount_consistency"
                 "Large discrepancy between estimated damage and claim amount")
      else Res.ok r
    | _, _ =>
      Res.ok (addError r "estimated_damage_amount" "Invalid estimated damage amount format")
  else Res.ok r

/-- Embeds `ClaimValidator._validate_financial_information`. -/
def validate_financial_information (cfg : Config) (d : ClaimData) (r : ValidationResult) : Res :=
  (Res.ok (claim_amount_check cfg (getVal d "claim_amount") r)).andThen fun r =>
  damage_consistency_check d r

/-- The `high_risk_keywords` list of `_validate_business_rules`. -/
def highRiskKeywords : List String :=
  ["parking lot", "mall", "downtown", "highway", "construction"]

/-- The weekend rule of `_validate_business_rules`: the incident date is
    parsed with the single format `"%Y-%m-%d"` and any failure is swallowed
    by the bare `except` (the `isinstance` guard sits inside the `try`). -/
def weekend_rule_check (v : Value) (r : ValidationResult) : ValidationResult :=
  strOnly v
    (fun s r =>
      match parseYmdDash s with
      | some dt =>
        if pyWeekday dt ≥ 5 then addWarning r "incident_timing" "Incident occurred on weekend"
        else r
      | none => r) r

/-- Embeds `ClaimValidator._validate_business_rules`; `.lower()` on a truthy
    non-string location raises. -/
def validate_business_rules (d : ClaimData) (r : ValidationResult) : Res :=
  (Res.ok (weekend_rule_check (getVal d "incident_date") r)).andThen fun r =>
  strGuard (getVal d "incident_location") "object has no attribute lower"
    (fun s r =>
      match highRiskKeywords.find? (fun kw => containsSub (lowerChars s.data) kw.data) with
      | some kw =>
        addWarning r "location_risk" ("Incident in potentially high-risk location: " ++ kw)
      | none => r) r

/-- Embeds `amount % 1000 == 0` for the modelled floats: an exact integer multiple
    of 1000. -/
def multOf1000 (x : ℚ) : Bool :=
  x.den == 1 && x.num % 1000 == 0

/-- Fraud indicator 1 of `_detect_fraud_indicators` (unusually high claim
    amount); the `float()` failure is caught locally. -/
def high_value_check (v : Value) (r : ValidationResult) : ValidationResult :=
  if v.truthy then
    match toFloat v with
    | some amount =>
      if amount > 50000 then
        addFraudIndicator r "high_value_claim" "medium" "Claim amount is unusually high"
      else r
    | none => r
  else r

/-- Fraud indicator 4 of `_detect_fraud_indicators` (the round-number
    check, source lines 385-396): fires when the truthy `claim_amount`
    coerces to a multiple of 1000 that is at least 5000. -/
def round_number_check (v : Value) (r : ValidationResult) : ValidationResult :=
  if v.truthy then
    match toFloat v with
    | some amount =>
      if multOf1000 amount && 5000 ≤ amount then
        addFraudIndicator r "round_number" "low" "Claim amount is a round number"
      else r
    | none => r
  else r

/-- The `critical_fields` list of fraud indicator 5. -/
def criticalFields : List String :=
  ["policy_number", "incident_location", "vehicle_vin"]

/-- Fraud indicator 5 of `_detect_fraud_indicators`: two or more critical
    fields missing. -/
def missing_information_check (d : ClaimData) (r : ValidationResult) : ValidationResult :=
  let missing := criticalFields.filter (fun f => !(getVal d f).truthy)
  if missing.length ≥ 2 then
    addFraudIndicator r "missing_information" "medium"
      ("Multiple critical fields missing: " ++ String.intercalate ", " missing)
  else r

/-- The `vague_keywords` list of fraud indicator 3. -/
def vagueKeywords : List String :=
  ["suddenly", "out of nowhere", "don\x27t remember", "not sure"]

/-- Embeds `ClaimValidator._detect_fraud_indicators`.  Indicators 2 and 3 call
    `.lower()` and can raise on truthy non-strings (the short-circuit of the
    `and` chain is respected); the float coercions are locally caught. -/
def detect_fraud_indicators (d : ClaimData) (r : ValidationResult) : Res :=
  (Res.ok (high_value_check (getVal d "claim_amount") r)).andThen fun r =>
  (strGuard2 (getVal d "claimant_name") (getVal d "policy_holder_name")
    "object has no attribute lower"
    (fun ns ps r =>
      if lowerChars ns.data != lowerChars ps.data then
        addFraudIndicator r "name_mismatch" "low"
          "Claimant name differs from policy holder name"
      else r) r).andThen fun r =>
  (strGuard (getVal d "incident_description") "object has no attribute lower"
    (fun s r =>
      match vagueKeywords.find? (fun kw => containsSub (lowerChars s.data) kw.data) with
      | some kw =>
        addFraudIndicator r "vague_description" "low"
          ("Incident description contains vague language: " ++ kw)
      | none => r) r).andThen fun r =>
  Res.ok (missing_information_check d (round_number_check (getVal d "claim_amount") r))

/-- Embeds `ClaimValidator._get_recommended_action`. -/
def get_recommended_action (risk_score : ℚ) : String :=
  if risk_score > 4/5 then "Reject or require extensive documentation"
  else if risk_score > 3/5 then "Require manual review and additional verification"
  else if risk_score > 3/10 then "Standard processing with monitoring"
  else "Standard processing"

/-- Risk contribution 1 of `_assess_risk`: high claim amount. -/
def risk_step1 (cfg : Config) (v : Value) (r : ValidationResult) :
    List String × ValidationResult :=
  if v.truthy then
    match toFloat v with
    | some amount =>
      if amount > cfg.manual_review_threshold then
        (["high_value"], { r with risk_score := r.risk_score + 3/10 })
      else ([], r)
    | none => ([], r)
  else ([], r)

/-- Risk contribution 2 of `_assess_risk`: field-fill ratio below one half.
    The field map is assumed to have distinct keys, as a Python dict does. -/
def risk_step2 (d : ClaimData) (r : ValidationResult) :
    List String × ValidationResult :=
  let total := d.length
  let filled := (d.map Prod.snd).countP strNonBlank
  let completeness : ℚ := if total > 0 then (filled : ℚ) / (total : ℚ) else 0
  if completeness < 1/2 then
    (["incomplete_information"], { r with risk_score := r.risk_score + 1/5 })
  else ([], r)

/-- Risk contribution 3 of `_assess_risk`: very new vehicle. -/
def risk_step3 (cfg : Config) (v : Value) (r : ValidationResult) :
    List String × ValidationResult :=
  if v.truthy then
    match toInt v with
    | some y =>
      if y ≥ cfg.current_year - 2 then
        (["new_vehicle"], { r with risk_score := r.risk_score + 1/10 })
      else ([], r)
    | none => ([], r)
  else ([], r)

/-- Risk contribution 4 of `_assess_risk`: weekend incident, parsed with the
    single format `"%Y-%m-%d"` (failures swallowed by the bare `except`). -/
def risk_step4 (v : Value) (r : ValidationResult) :
    List String × ValidationResult :=
  if v.truthy then
    match v with
    | .vStr s =>
      match parseYmdDash s with
      | some dt =>
        if pyWeekday dt ≥ 5 then
          (["weekend_incident"], { r with risk_score := r.risk_score + 1/20 })
        else ([], r)
      | none => ([], r)
    | _ => ([], r)
  else ([], r)

/-- Embeds `ClaimValidator._assess_risk`: the four additive contributions in order,
    the final clamp `risk_score = min(risk_score, 1.0)`, and the synthetic
    `risk_assessment` correction entry built from the clamped score. -/
def assess_risk (cfg : Config) (d : ClaimData) (r : ValidationResult) : ValidationResult :=
  let s1 := risk_step1 cfg (getVal d "claim_amount") r
  let s2 := risk_step2 d s1.2
  let s3 := risk_step3 cfg (getVal d "vehicle_year") s2.2
  let s4 := risk_step4 (getVal d "incident_date") s3.2
  let risk_factors := s1.1 ++ s2.1 ++ s3.1 ++ s4.1
  let r := { s4.2 with risk_score := min s4.2.risk_score 1 }
  let meta : CorrVal :=
    CorrVal.riskMeta risk_factors
      (if r.risk_score > (7/10 : ℚ) then "high"
       else if r.risk_score > (3/10 : ℚ) then "medium" else "low")
      (get_recommended_action r.risk_score)
  { r with corrections := setCorr r.corrections "risk_assessment" meta }

/-- The fixed sub-validator sequence run inside the `try` block of
    `validate_claim`, starting from a fresh accumulator. -/
def runStages (cfg : Config) (libs : Libs) (d : ClaimData) : Res :=
  (Res.ok (validate_required_fields d ValidationResult.init)).andThen
    (validate_personal_information libs d) |>.andThen
    (validate_policy_information d) |>.andThen
    (validate_incident_information cfg d) |>.andThen
    (validate_vehicle_information cfg d) |>.andThen
    (validate_financial_information cfg d) |>.andThen
    (validate_business_rules d) |>.andThen
    (detect_fraud_indicators d) |>.andThen
    (fun r => Res.ok (assess_risk cfg d r))

/-- Embeds `ClaimValidator.validate_claim`: runs the stage sequence; any exception
    escaping a sub-validator is caught once here, converted into a single
    `validation_process` error on the partially built accumulator, and the
    accumulator is returned.  The function is total: it never raises. -/
def validate_claim (cfg : Config) (libs : Libs) (d : ClaimData) : ValidationResult :=
  match runStages cfg libs d with
  | Res.ok r => r
  | .exn m r => addError r "validation_process" ("Validation failed: " ++ m)

/-- Look up a key of the corrections map. -/
def getCorrection (r : ValidationResult) (k : String) : Option CorrVal :=
  r.corrections.lookup k

/-- The `risk_factors` list stored in the synthetic `risk_assessment`
    correction entry. -/
def riskFactorsOf (r : ValidationResult) : List String :=
  match getCorrection r "risk_assessment" with
  | some (.riskMeta fs _ _) => fs
  | _ => []

/-- One of the four literal direct increments `result.risk_score += c`
    performed by `_assess_risk` (0.3, 0.2, 0.1, 0.05). -/
inductive RiskAmount where
  | r030
  | r020
  | r010
  | r005
deriving DecidableEq, Repr

/-- The rational value of a direct risk increment. -/
def RiskAmount.val : RiskAmount → ℚ
  | .r030 => 3/10
  | .r020 => 1/5
  | .r010 => 1/10
  | .r005 => 1/20

/-- The repertoire of mutations a validation run applies to the shared
    `ValidationResult` accumulator: the four `add_*` methods, the direct
    score increments of `_assess_risk`, and its final clamp
    `risk_score = min(risk_score, 1.0)`. -/
inductive Mutation where
  | error (field message : String)
  | warning (field message : String)
  | correction (field : String) (v : CorrVal)
  | fraudIndicator (indicator severity details : String)
  | risk (a : RiskAmount)
  | clampRisk
deriving DecidableEq, Repr

/-- Apply one mutation to the accumulator. -/
def applyMutation (r : ValidationResult) : Mutation → ValidationResult
  | .error f m => addError r f m
  | .warning f m => addWarning r f m
  | .correction f v => { r with corrections := setCorr r.corrections f v }
  | .fraudIndicator i s d => addFraudIndicator r i s d
  | .risk a => { r with risk_score := r.risk_score + a.val }
  | .clampRisk => { r with risk_score := min r.risk_score 1 }

/-- Apply a whole run's mutation sequence. -/
def applyMutations (r : ValidationResult) (ms : List Mutation) : ValidationResult :=
  ms.foldl applyMutation r

/-- Whether a sub-validator finished without raising. -/
def Res.isOk : Res → Bool
  | .ok _ => true
  | .exn _ _ => false

/-- A VIN string containing the letter I, O, or Q in either case. -/
def hasIOQ (s : String) : Bool :=
  s.data.any (fun c => c.toUpper == 'I' || c.toUpper == 'O' || c.toUpper == 'Q')

/-- Count the entries of an error/warning list scoped to a given field. -/
def countField (f : String) (l : List FieldMessage) : Nat :=
  l.countP (fun e => e.field == f)

/-- The round-number condition on the coerced claim amount: an exact
    multiple of 1000 that is at least 5000 (with the enclosing truthiness
    guard of the source). -/
def roundCond (v : Value) : Bool :=
  v.truthy &&
    match toFloat v with
    | some x => multOf1000 x && decide (5000 ≤ x)
    | none => false

/-- No error entry carries the orchestration-reserved field
    `"validation_process"`. -/
def noVPErr (r : ValidationResult) : Prop :=
  ∀ e ∈ r.errors, e.field ≠ "validation_process"

theorem severityScore_nonneg (s : String) : 0 ≤ severityScore s := by
  unfold severityScore
  split_ifs <;> norm_num

theorem riskAmount_nonneg (a : RiskAmount) : 0 ≤ a.val := by
  cases a <;> norm_num [RiskAmount.val]

theorem applyMutations_risk_nonneg (ms : List Mutation) (r : ValidationResult)
    (h : 0 ≤ r.risk_score) : 0 ≤ (applyMutations r ms).risk_score := by
  induction ms generalizing r with
  | nil => exact h
  | cons m ms ih =>
    refine ih _ ?_
    cases m with
    | error f msg => exact h
    | warning f msg => exact h
    | correction f v => exact h
    | fraudIndicator i s d =>
      exact add_nonneg h (severityScore_nonneg s)
    | risk a => exact add_nonneg h (riskAmount_nonneg a)
    | clampRisk => exact le_min h zero_le_one

theorem applyMutations_valid_iff (ms : List Mutation) (r : ValidationResult)
    (h : r.is_valid = r.errors.isEmpty) :
    (applyMutations r ms).is_valid = (applyMutations r ms).errors.isEmpty := by
  induction ms generalizing r with
  | nil => exact h
  | cons m ms ih =>
    refine ih _ ?_
    cases m with
    | error f msg => simp [applyMutation, addError]
    | warning f msg => simpa [applyMutation, addWarning] using h
    | correction f v => simpa [applyMutation] using h
    | fraudIndicator i s d => simpa [applyMutation, addFraudIndicator] using h
    | risk a => simpa [applyMutation] using h
    | clampRisk => simpa [applyMutation] using h

/-- C2. Over every mutation sequence a validation run can apply to a
    fresh accumulator, the `risk_score` read through `to_dict` lies in
    `[0.0, 1.0]`: the score starts at `0.0`, every fraud-indicator
    contribution and every direct contribution is non-negative, and the
    serialized read is clamped by `min(risk_score, 1.0)` — even when the raw
    accumulation exceeds `1.0` mid-run, as with three high-severity
    indicators accumulating `1.5` raw while the final read is `1.0`. -/
theorem risk_score_clamped_unit_interval :
    ValidationResult.init.risk_score = 0 ∧
    (∀ s, 0 ≤ severityScore s) ∧
    (∀ a : RiskAmount, 0 ≤ a.val) ∧
    (∀ (ms : List Mutation) (now : String),
      0 ≤ (toDict (applyMutations ValidationResult.init ms) now).risk_score ∧
      (toDict (applyMutations ValidationResult.init ms) now).risk_score ≤ 1) ∧
    (applyMutations ValidationResult.init
        (List.replicate 3 (Mutation.fraudIndicator "i" "high" "d"))).risk_score = 3/2 ∧
    (toDict (applyMutations ValidationResult.init
        (List.replicate 3 (Mutation.fraudIndicator "i" "high" "d"))) "t").risk_score = 1 := by
  refine ⟨rfl, severityScore_nonneg, riskAmount_nonneg, fun ms now => ⟨?_, ?_⟩, ?_, ?_⟩
  · exact le_min (applyMutations_risk_nonneg ms _ (by norm_num [ValidationResult.init]))
      zero_le_one
  · exact min_le_right _ _
  · with_unfolding_all decide
  · with_unfolding_all decide

/-- C3. `is_valid` starts `true` and, across every mutation sequence a
    run can apply, equals `errors.isEmpty` afterwards: adding any error sets
    it permanently `false`, and no warning, correction or fraud indicator
    changes it. -/
theorem is_valid_iff_errors_empty :
    ValidationResult.init.is_valid = true ∧
    ∀ ms : List Mutation,
      (applyMutations ValidationResult.init ms).is_valid =
        (applyMutations ValidationResult.init ms).errors.isEmpty := by
  refine ⟨rfl, fun ms => applyMutations_valid_iff ms _ rfl⟩

theorem noVP_init : noVPErr ValidationResult.init := by
  intro e he
  simp [ValidationResult.init] at he

theorem noVPErr_addError {r : ValidationResult} {f m : String}
    (hf : f ≠ "validation_process") (h : noVPErr r) : noVPErr (addError r f m) := by
  intro e he
  simp only [addError, List.mem_append, List.mem_singleton] at he
  rcases he with he | he
  · exact h e he
  · rw [he]; exact hf

theorem noVP_andThen {x : Res} {f : ValidationResult → Res}
    (hx : noVPErr x.state) (hf : ∀ r, noVPErr r → noVPErr (f r).state) :
    noVPErr (x.andThen f).state := by
  cases x with
  | ok r => exact hf r hx
  | exn m r => exact hx

theorem noVP_strGuard {v : Value} {msg : String}
    {body : String → ValidationResult → ValidationResult} {r : ValidationResult}
    (hb : ∀ s r, noVPErr r → noVPErr (body s r)) (h : noVPErr r) :
    noVPErr (strGuard v msg body r).state := by
  unfold strGuard
  rcases v with s | x | b | _ <;> split <;> first | exact hb _ _ h | exact h

theorem noVP_strGuard2 {v₁ v₂ : Value} {msg : String}
    {body : String → String → ValidationResult → ValidationResult} {r : ValidationResult}
    (hb : ∀ a b r, noVPErr r → noVPErr (body a b r)) (h : noVPErr r) :
    noVPErr (strGuard2 v₁ v₂ msg body r).state := by
  unfold strGuard2
  rcases v₁ with s | x | b | _ <;> rcases v₂ with s' | x' | b' | _ <;> split <;>
    first | exact hb _ _ _ h | exact h

theorem noVP_strOnly {v : Value}
    {body : String → ValidationResult → ValidationResult} {r : ValidationResult}
    (hb : ∀ s r, noVPErr r → noVPErr (body s r)) (h : noVPErr r) :
    noVPErr (strOnly v body r) := by
  unfold strOnly
  rcases v with s | x | b | _ <;> split <;> first | exact hb _ _ h | exact h

theorem noVP_required (d : ClaimData) (r : ValidationResult) (h : noVPErr r) :
    noVPErr (validate_required_fields d r) := by
  unfold validate_required_fields
  have step : ∀ (fs : List String), (∀ f ∈ fs, f ≠ "validation_process") →
      ∀ r, noVPErr r →
      noVPErr (fs.foldl
        (fun r f => if reqBad (getVal d f) then addError r f (reqMsg f) else r) r) := by
    intro fs
    induction fs with
    | nil => intro _ r h; exact h
    | cons f fs ih =>
      intro hfs r h
      simp only [List.foldl]
      apply ih (fun g hg => hfs g (List.mem_cons_of_mem _ hg))
      split
      · exact noVPErr_addError (hfs f (List.mem_cons_self _ _)) h
      · exact h
  exact step _ (by decide) r h

theorem noVP_personal (libs : Libs) (d : ClaimData) (r : ValidationResult)
    (h : noVPErr r) : noVPErr (validate_personal_information libs d r).state := by
  unfold validate_personal_information
  refine noVP_andThen (noVP_strGuard (fun s r h => ?_) h) fun r h =>
    noVP_andThen (noVP_strGuard (fun s r h => ?_) h) fun r h =>
      noVP_strGuard (fun s r h => ?_) h
  · split_ifs <;> first | exact h | exact noVPErr_addError (by decide) h
  · split
    · split_ifs <;> exact h
    · exact noVPErr_addError (by decide) h
  · split
    · exact noVPErr_addError (by decide) h
    · split_ifs <;> first | exact h | exact noVPErr_addError (by decide) h

theorem noVP_policy (d : ClaimData) (r : ValidationResult) (h : noVPErr r) :
    noVPErr (validate_policy_information d r).state := by
  unfold validate_policy_information
  refine noVP_andThen (noVP_strGuard (fun s r h => ?_) h) fun r h =>
    noVP_strGuard (fun s r h => ?_) h
  · split_ifs <;> first | exact h | exact noVPErr_addError (by decide) h
  · split_ifs <;> exact h

theorem noVP_incident_date (cfg : Config) (v : Value) (r : ValidationResult)
    (h : noVPErr r) : noVPErr (incident_date_check cfg v r) := by
  unfold incident_date_check
  refine noVP_strOnly (fun s r h => ?_) h
  split
  · exact noVPErr_addError (by decide) h
  · split_ifs <;> first | exact h | exact noVPErr_addError (by decide) h

theorem noVP_incident (cfg : Config) (d : ClaimData) (r : ValidationResult)
    (h : noVPErr r) : noVPErr (validate_incident_information cfg d r).state := by
  unfold validate_incident_information
  refine noVP_andThen (noVP_incident_date cfg _ r h) fun r h =>
    noVP_strGuard (fun s r h => ?_) h
  split_ifs <;> exact h

theorem noVP_vehicle_year (cfg : Config) (v : Value) (r : ValidationResult)
    (h : noVPErr r) : noVPErr (vehicle_year_check cfg v r) := by
  unfold vehicle_year_check
  split
  · split
    · split_ifs <;> first | exact h | exact noVPErr_addError (by decide) h
    · exact noVPErr_addError (by decide) h
  · exact h

theorem noVP_vin_check (s : String) (r : ValidationResult) (h : noVPErr r) :
    noVPErr (vin_check s r) := by
  unfold vin_check
  split_ifs <;> first | exact h | exact noVPErr_addError (by decide) h

theorem noVP_vehicle (cfg : Config) (d : ClaimData) (r : ValidationResult)
    (h : noVPErr r) : noVPErr (validate_vehicle_information cfg d r).state := by
  unfold validate_vehicle_information
  refine noVP_andThen (noVP_vehicle_year cfg _ r h) fun r h =>
    noVP_andThen (noVP_strGuard (fun s r h => noVP_vin_check s r h) h) fun r h =>
      noVP_strGuard (fun s r h => ?_) h
  split_ifs <;> exact h

theorem noVP_claim_amount (cfg : Config) (v : Value) (r : ValidationResult)
    (h : noVPErr r) : noVPErr (claim_amount_check cfg v r) := by
  unfold claim_amount_check
  split
  · split
    · split_ifs <;> first | exact h | exact noVPErr_addError (by decide) h
    · exact noVPErr_addError (by decide) h
  · exact h

theorem noVP_damage (d : ClaimData) (r : ValidationResult) (h : noVPErr r) :
    noVPErr (damage_consistency_check d r).state := by
  simp only [damage_consistency_check]
  split
  · split
    · split_ifs <;> first | exact h | exact noVPErr_addError (by decide) h
    · exact noVPErr_addError (by decide) h
  · exact h

theorem noVP_financial (cfg : Config) (d : ClaimData) (r : ValidationResult)
    (h : noVPErr r) : noVPErr (validate_financial_information cfg d r).state := by
  unfold validate_financial_information
  exact noVP_andThen (noVP_claim_amount cfg _ r h) (fun r h => noVP_damage d r h)

theorem noVP_weekend (v : Value) (r : ValidationResult) (h : noVPErr r) :
    noVPErr (weekend_rule_check v r) := by
  unfold weekend_rule_check
  refine noVP_strOnly (fun s r h => ?_) h
  split
  · split_ifs <;> exact h
  · exact h

theorem noVP_business (d : ClaimData) (r : ValidationResult) (h : noVPErr r) :
    noVPErr (validate_business_rules d r).state := by
  unfold validate_business_rules
  refine noVP_andThen (noVP_weekend _ r h) fun r h =>
    noVP_strGuard (fun s r h => ?_) h
  split <;> exact h

theorem noVP_high_value (v : Value) (r : ValidationResult) (h : noVPErr r) :
    noVPErr (high_value_check v r) := by
  unfold high_value_check
  split
  · split
    · split_ifs <;> exact h
    · exact h
  · exact h

theorem noVP_round (v : Value) (r : ValidationResult) (h : noVPErr r) :
    noVPErr (round_number_check v r) := by
  unfold round_number_check
  split
  · split
    · split_ifs <;> exact h
    · exact h
  · exact h

theorem noVP_missing (d : ClaimData) (r : ValidationResult) (h : noVPErr r) :
    noVPErr (missing_information_check d r) := by
  simp only [missing_information_check]
  split <;> exact h

theorem noVP_fraud (d : ClaimData) (r : ValidationResult) (h : noVPErr r) :
    noVPErr (detect_fraud_indicators d r).state := by
  unfold detect_fraud_indicators
  refine noVP_andThen (noVP_high_value _ r h) fun r h =>
    noVP_andThen (noVP_strGuard2 (fun a b r h => ?_) h) fun r h =>
      noVP_andThen (noVP_strGuard (fun s r h => ?_) h) fun r h =>
        noVP_missing d _ (noVP_round _ r h)
  · split_ifs <;> exact h
  · split <;> exact h

theorem risk_step1_errors (cfg : Config) (v : Value) (r : ValidationResult) :
    (risk_step1 cfg v r).2.errors = r.errors := by
  unfold risk_step1
  repeat' split
  all_goals rfl

theorem risk_step2_errors (d : ClaimData) (r : ValidationResult) :
    (risk_step2 d r).2.errors = r.errors := by
  simp only [risk_step2]
  repeat' split
  all_goals rfl

theorem risk_step3_errors (cfg : Config) (v : Value) (r : ValidationResult) :
    (risk_step3 cfg v r).2.errors = r.errors := by
  unfold risk_step3
  repeat' split
  all_goals rfl

theorem risk_step4_errors (v : Value) (r : ValidationResult) :
    (risk_step4 v r).2.errors = r.errors := by
  unfold risk_step4
  repeat' split
  all_goals rfl

theorem assess_risk_errors (cfg : Config) (d : ClaimData) (r : ValidationResult) :
    (assess_risk cfg d r).errors = r.errors := by
  simp only [assess_risk]
  rw [risk_step4_errors, risk_step3_errors, risk_step2_errors, risk_step1_errors]

theorem noVP_assess (cfg : Config) (d : ClaimData) (r : ValidationResult)
    (h : noVPErr r) : noVPErr (assess_risk cfg d r) := by
  intro e he
  rw [assess_risk_errors] at he
  exact h e he

theorem noVP_runStages (cfg : Config) (libs : Libs) (d : ClaimData) :
    noVPErr (runStages cfg libs d).state := by
  unfold runStages
  refine noVP_andThen (noVP_andThen (noVP_andThen (noVP_andThen (noVP_andThen
    (noVP_andThen (noVP_andThen (noVP_andThen ?_ ?_) ?_) ?_) ?_) ?_) ?_) ?_) ?_
  · exact noVP_required d _ noVP_init
  · exact fun r h => noVP_personal libs d r h
  · exact fun r h => noVP_policy d r h
  · exact fun r h => noVP_incident cfg d r h
  · exact fun r h => noVP_vehicle cfg d r h
  · exact fun r h => noVP_financial cfg d r h
  · exact fun r h => noVP_business d r h
  · exact fun r h => noVP_fraud d r h
  · exact fun r h => noVP_assess cfg d r h

/-- C1. For every input field map, `validate_claim` returns a
    `ValidationResult` (it is total, never propagating an exception): when
    the stage sequence raises with message `m` leaving partial accumulator
    `r`, the returned outcome is exactly `r` with one error on field
    `"validation_process"` carrying the failure message appended — all other
    accumulator components are returned as built — and that is the only
    `validation_process` error in the outcome; when no stage raises, the
    outcome is the stage result and carries no `validation_process` error. -/
theorem validate_claim_catches_all (cfg : Config) (libs : Libs) (d : ClaimData) :
    (∀ m r, runStages cfg libs d = Res.exn m r →
      validate_claim cfg libs d =
        addError r "validation_process" ("Validation failed: " ++ m) ∧
      (validate_claim cfg libs d).errors =
        r.errors ++ [⟨"validation_process", "Validation failed: " ++ m⟩] ∧
      (validate_claim cfg libs d).warnings = r.warnings ∧
      (validate_claim cfg libs d).corrections = r.corrections ∧
      (validate_claim cfg libs d).risk_score = r.risk_score ∧
      (validate_claim cfg libs d).fraud_indicators = r.fraud_indicators ∧
      (validate_claim cfg libs d).errors.countP
        (fun e => e.field == "validation_process") = 1) ∧
    (∀ r, runStages cfg libs d = Res.ok r →
      validate_claim cfg libs d = r ∧
      (validate_claim cfg libs d).errors.countP
        (fun e => e.field == "validation_process") = 0) := by
  have hcount : ∀ r : ValidationResult, noVPErr r →
      r.errors.countP (fun e => e.field == "validation_process") = 0 := by
    intro r h
    refine List.countP_eq_zero.mpr fun e he => ?_
    simpa using h e he
  constructor
  · intro m r heq
    have hnv : noVPErr r := by
      have h0 := noVP_runStages cfg libs d
      rw [heq] at h0
      exact h0
    have hvc : validate_claim cfg libs d =
        addError r "validation_process" ("Validation failed: " ++ m) := by
      unfold validate_claim
      rw [heq]
    refine ⟨hvc, ?_, ?_, ?_, ?_, ?_, ?_⟩ <;> rw [hvc]
    · rfl
    · rfl
    · rfl
    · rfl
    · rfl
    · simp [addError, List.countP_append, hcount r hnv]
  · intro r heq
    have hnv : noVPErr r := by
      have h0 := noVP_runStages cfg libs d
      rw [heq] at h0
      exact h0
    have hvc : validate_claim cfg libs d = r := by
      unfold validate_claim
      rw [heq]
    exact ⟨hvc, by rw [hvc]; exact hcount r hnv⟩

/-- Witness for C1: a field map whose truthy non-string `claimant_name`
    makes the personal-information stage raise; the returned outcome carries
    exactly one `validation_process` error appended to the three
    required-field errors accumulated before the failure. -/
theorem validate_claim_catches_all_witness :
    (validate_claim defaultConfig dummyLibs [("claimant_name", Value.vNum 5)]).errors.countP
      (fun e => e.field == "validation_process") = 1 ∧
    (validate_claim defaultConfig dummyLibs [("claimant_name", Value.vNum 5)]).errors =
      (validate_required_fields [("claimant_name", Value.vNum 5)]
          ValidationResult.init).errors ++
        [⟨"validation_process", "Validation failed: object has no len()"⟩] := by
  have h := (validate_claim_catches_all defaultConfig dummyLibs
      [("claimant_name", Value.vNum 5)]).1 "object has no len()"
      (validate_required_fields [("claimant_name", Value.vNum 5)] ValidationResult.init)
      (by with_unfolding_all decide)
  exact ⟨h.2.2.2.2.2.2, h.2.1⟩

/-- C4 counterexample. The field map of the spec's minimal valid claim
    with `claim_amount` set to the number `0`: the value is present and
    non-textual, yet the required-field check adds an error on
    `claim_amount` (Python truthiness `not value` fires on numeric zero) —
    contradicting the claim that a present non-textual `0` does not trigger
    the required-field error. -/
theorem required_fields_zero_counterexample :
    getVal
        [("claimant_name", Value.vStr "John Doe"),
         ("incident_date", Value.vStr "2024-01-15"),
         ("claim_amount", Value.vNum 0),
         ("incident_description", Value.vStr "Rear-ended at a light")] "claim_amount" =
      Value.vNum 0 ∧
    (validate_required_fields
        [("claimant_name", Value.vStr "John Doe"),
         ("incident_date", Value.vStr "2024-01-15"),
         ("claim_amount", Value.vNum 0),
         ("incident_description", Value.vStr "Rear-ended at a light")]
        ValidationResult.init).errors =
      [⟨"claim_amount", reqMsg "claim_amount"⟩] ∧
    (validate_required_fields
        [("claimant_name", Value.vStr "John Doe"),
         ("incident_date", Value.vStr "2024-01-15"),
         ("claim_amount", Value.vNum 0),
         ("incident_description", Value.vStr "Rear-ended at a light")]
        ValidationResult.init).is_valid = false := by
  with_unfolding_all decide

/-- C4 amended. For every input field map, the required-field check
    adds one error (in list order) exactly for those of `claimant_name`,
    `incident_date`, `claim_amount`, `incident_description` whose value is
    Python-falsy — absent/None, `False`, numeric zero, the empty string — or
    is a string blank after trimming (`reqBad`); a present non-textual but
    falsy value such as the number `0` therefore does trigger the error. -/
theorem required_fields_amended :
    (∀ (d : ClaimData) (r : ValidationResult),
      (validate_required_fields d r).errors =
        r.errors ++ (requiredFieldsList.filter (fun f => reqBad (getVal d f))).map
          (fun f => ⟨f, reqMsg f⟩)) ∧
    reqBad (Value.vNum 0) = true ∧
    reqBad (Value.vStr "   ") = true ∧
    reqBad Value.vNone = true ∧
    reqBad (Value.vBool false) = true ∧
    reqBad (Value.vNum 500) = false ∧
    reqBad (Value.vStr "John") = false := by
  refine ⟨fun d r => ?_, by decide, by decide, by decide, by decide, by decide, by decide⟩
  unfold validate_required_fields
  have step : ∀ (fs : List String) (r : ValidationResult),
      (fs.foldl (fun r f => if reqBad (getVal d f) then addError r f (reqMsg f) else r)
          r).errors =
        r.errors ++ (fs.filter (fun f => reqBad (getVal d f))).map (fun f => ⟨f, reqMsg f⟩) := by
    intro fs
    induction fs with
    | nil => intro r; simp
    | cons f fs ih =>
      intro r
      simp only [List.foldl]
      by_cases hb : reqBad (getVal d f) = true
      · rw [if_pos hb, ih]
        simp [addError, hb, List.filter_cons, List.append_assoc]
      · rw [if_neg hb, ih]
        simp [List.filter_cons, hb]
  exact step _ r

theorem damage_check_ok (d : ClaimData) (r : ValidationResult) :
    ∃ r', damage_consistency_check d r = Res.ok r' := by
  simp only [damage_consistency_check]
  split
  · split
    · split_ifs with h1 h2 h3
      · exact ⟨_, rfl⟩
      · exfalso
        rename_i est_val claim_val heq1 heq2
        have hpos : (0 : ℚ) < est_val := not_le.mp h1
        have hmax : est_val ≤ max est_val claim_val := le_max_left _ _
        have hz : max est_val claim_val = 0 := by exact_mod_cast beq_iff_eq.mp h2
        rw [hz] at hmax
        linarith
      · exact ⟨_, rfl⟩
      · exact ⟨_, rfl⟩
    · exact ⟨_, rfl⟩
  · exact ⟨_, rfl⟩

/-- C10. The relative-discrepancy division of the financial stage is
    evaluated only under the guard `est_val > 0` (the non-positive branch
    precedes it), so its divisor `max(est_val, claim_val)` is nonzero and
    the stage never raises the modelled `ZeroDivisionError`: for every
    configuration, field map, and accumulator it returns `Res.ok` — also
    when `claim_amount` coerces to zero or a negative number, as the
    concrete run with `est = 5000`, `claim_amount = 0` shows. -/
theorem financial_discrepancy_no_divzero :
    (∀ (cfg : Config) (d : ClaimData) (r : ValidationResult),
      ∃ r', validate_financial_information cfg d r = Res.ok r') ∧
    (validate_financial_information defaultConfig
        [("claim_amount", Value.vNum 0), ("estimated_damage_amount", Value.vNum 5000)]
        ValidationResult.init).isOk = true ∧
    (validate_financial_information defaultConfig
        [("claim_amount", Value.vNum 0), ("estimated_damage_amount", Value.vNum 5000)]
        ValidationResult.init).state.warnings =
      [⟨"amount_consistency",
        "Large discrepancy between estimated damage and claim amount"⟩] := by
  refine ⟨fun cfg d r => ?_, by with_unfolding_all decide, by with_unfolding_all decide⟩
  unfold validate_financial_information
  exact damage_check_ok d _

theorem vehicle_year_check_vin_counts (cfg : Config) (v : Value) (r : ValidationResult) :
    (vehicle_year_check cfg v r).errors.countP (fun e => e.field == "vehicle_vin") =
      r.errors.countP (fun e => e.field == "vehicle_vin") ∧
    (vehicle_year_check cfg v r).warnings.countP (fun e => e.field == "vehicle_vin") =
      r.warnings.countP (fun e => e.field == "vehicle_vin") := by
  unfold vehicle_year_check
  repeat' split
  all_goals constructor
  all_goals simp [addError, addWarning, List.countP_append]

theorem truthy_of_hasIOQ {s : String} (h : hasIOQ s = true) :
    (Value.vStr s).truthy = true := by
  simp only [hasIOQ, List.any_eq_true] at h
  obtain ⟨c, hc, _⟩ := h
  simp [Value.truthy, List.isEmpty_iff, List.ne_nil_of_mem hc]

theorem vinCharsOk_of_hasIOQ {s : String} (h : hasIOQ s = true) :
    vinCharsOk (upperChars s.data) = false := by
  simp only [hasIOQ, List.any_eq_true] at h
  obtain ⟨c, hc, hp⟩ := h
  have hall : (upperChars s.data).all vinAllowedChar = false := by
    rw [List.all_eq_false]
    refine ⟨c.toUpper, List.mem_map_of_mem _ hc, ?_⟩
    simp only [Bool.or_eq_true, beq_iff_eq] at hp
    rcases hp with (hp' | hp') | hp' <;> rw [hp'] <;> decide
  simp [vinCharsOk, hall]

theorem vin_check_ioq_counts {s : String} {r : ValidationResult} (h : hasIOQ s = true) :
    (vin_check s r).errors.countP (fun e => e.field == "vehicle_vin") =
      r.errors.countP (fun e => e.field == "vehicle_vin") + 1 ∧
    (vin_check s r).warnings.countP (fun e => e.field == "vehicle_vin") =
      r.warnings.countP (fun e => e.field == "vehicle_vin") := by
  unfold vin_check
  by_cases hl : (s.data.length != 17) = true
  · rw [if_pos hl]
    constructor <;> simp [addError, List.countP_append]
  · rw [if_neg hl, vinCharsOk_of_hasIOQ h]
    simp only [Bool.not_false, if_true]
    constructor <;> simp [addError, List.countP_append]

/-- C7. For every field map whose `vehicle_vin` is a string containing
    the letter I, O, or Q in either case, the vehicle-information stage adds
    exactly one error on field `vehicle_vin` (a length error when not 17
    characters, a charset error otherwise) and adds no `vehicle_vin`
    warning: the checksum validation, whose failure would only warn, is
    never reached for such a VIN. -/
theorem vin_ioq_rejected (cfg : Config) (d : ClaimData) (r : ValidationResult)
    (s : String) (hv : getVal d "vehicle_vin" = Value.vStr s) (hioq : hasIOQ s = true) :
    (validate_vehicle_information cfg d r).state.errors.countP
        (fun e => e.field == "vehicle_vin") =
      r.errors.countP (fun e => e.field == "vehicle_vin") + 1 ∧
    (validate_vehicle_information cfg d r).state.warnings.countP
        (fun e => e.field == "vehicle_vin") =
      r.warnings.countP (fun e => e.field == "vehicle_vin") := by
  obtain ⟨hye, hyw⟩ := vehicle_year_check_vin_counts cfg (getVal d "vehicle_year") r
  obtain ⟨hve, hvw⟩ := vin_check_ioq_counts
    (r := vehicle_year_check cfg (getVal d "vehicle_year") r) hioq
  unfold validate_vehicle_information
  simp only [Res.andThen, hv]
  rw [show strGuard (Value.vStr s) "object has no len()" vin_check
        (vehicle_year_check cfg (getVal d "vehicle_year") r) =
      Res.ok (vin_check s (vehicle_year_check cfg (getVal d "vehicle_year") r)) by
    unfold strGuard
    rw [truthy_of_hasIOQ hioq]
    simp]
  simp only [Res.andThen]
  rcases hlp : getVal d "license_plate" with ls | lx | lb | _ <;>
    unfold strGuard <;> split_ifs <;> dsimp only [Res.state] <;> (try split_ifs) <;>
    constructor <;>
    simp [addWarning, List.countP_append, hve, hvw, hye, hyw]

/-- Witness for C7: the spec's example VIN `1HGBH41JXMN10987O` (17
    characters, contains the letter O) yields exactly one `vehicle_vin`
    error and no `vehicle_vin` warning. -/
theorem vin_ioq_rejected_witness :
    (validate_vehicle_information defaultConfig
        [("vehicle_vin", Value.vStr "1HGBH41JXMN10987O")]
        ValidationResult.init).state.errors.countP
      (fun e => e.field == "vehicle_vin") = 1 ∧
    (validate_vehicle_information defaultConfig
        [("vehicle_vin", Value.vStr "1HGBH41JXMN10987O")]
        ValidationResult.init).state.warnings.countP
      (fun e => e.field == "vehicle_vin") = 0 := by
  have h := vin_ioq_rejected defaultConfig
    [("vehicle_vin", Value.vStr "1HGBH41JXMN10987O")] ValidationResult.init
    "1HGBH41JXMN10987O" (by with_unfolding_all decide) (by with_unfolding_all decide)
  exact ⟨h.1, h.2⟩

theorem damage_ca_counts (d : ClaimData) (r : ValidationResult) :
    countField "claim_amount" (damage_consistency_check d r).state.errors =
      countField "claim_amount" r.errors ∧
    countField "claim_amount" (damage_consistency_check d r).state.warnings =
      countField "claim_amount" r.warnings := by
  simp only [damage_consistency_check]
  repeat' split
  all_goals constructor
  all_goals simp [countField, Res.state, addError, addWarning, List.countP_append]

/-- C8. Assuming the configured manual-review threshold is below the
    configured maximum claim amount, the financial stage treats a present
    (non-`None`) `claim_amount` by cases: non-coercible → one error on
    `claim_amount`; coercible to `x ≤ 0` → one error; `x` above the maximum
    → one error; `x` above the threshold but at most the maximum → one
    warning and no error; `0 < x ≤ threshold` → neither error nor warning on
    `claim_amount`. -/
theorem financial_claim_amount_cases (cfg : Config) (d : ClaimData) (r : ValidationResult)
    (v : Value) (hv : getVal d "claim_amount" = v) (hne : v ≠ Value.vNone)
    (hcfg : cfg.manual_review_threshold < cfg.max_claim_amount)
    (hpos : 0 ≤ cfg.manual_review_threshold) :
    (toFloat v = none →
      countField "claim_amount" (validate_financial_information cfg d r).state.errors =
        countField "claim_amount" r.errors + 1) ∧
    (∀ x, toFloat v = some x → x ≤ 0 →
      countField "claim_amount" (validate_financial_information cfg d r).state.errors =
        countField "claim_amount" r.errors + 1) ∧
    (∀ x, toFloat v = some x → cfg.max_claim_amount < x →
      countField "claim_amount" (validate_financial_information cfg d r).state.errors =
        countField "claim_amount" r.errors + 1) ∧
    (∀ x, toFloat v = some x → cfg.manual_review_threshold < x →
        x ≤ cfg.max_claim_amount →
      countField "claim_amount" (validate_financial_information cfg d r).state.errors =
        countField "claim_amount" r.errors ∧
      countField "claim_amount" (validate_financial_information cfg d r).state.warnings =
        countField "claim_amount" r.warnings + 1) ∧
    (∀ x, toFloat v = some x → 0 < x → x ≤ cfg.manual_review_threshold →
      countField "claim_amount" (validate_financial_information cfg d r).state.errors =
        countField "claim_amount" r.errors ∧
      countField "claim_amount" (validate_financial_information cfg d r).state.warnings =
        countField "claim_amount" r.warnings) := by
  have hkey : ∀ rr : ValidationResult,
      countField "claim_amount" (validate_financial_information cfg d rr).state.errors =
        countField "claim_amount" (claim_amount_check cfg (getVal d "claim_amount") rr).errors ∧
      countField "claim_amount" (validate_financial_information cfg d rr).state.warnings =
        countField "claim_amount" (claim_amount_check cfg (getVal d "claim_amount") rr).warnings := by
    intro rr
    unfold validate_financial_information
    exact damage_ca_counts d _
  obtain ⟨hke, hkw⟩ := hkey r
  rw [hke, hkw]
  have hbne : (v != Value.vNone) = true := by
    simpa [bne_iff_ne] using hne
  unfold claim_amount_check
  rw [hv, if_pos hbne]
  refine ⟨?_, ?_, ?_, ?_, ?_⟩
  · intro htf
    rw [htf]
    simp [countField, addError, List.countP_append]
  · intro x htf hx
    rw [htf]
    simp only [if_pos hx]
    simp [countField, addError, List.countP_append]
  · intro x htf hx
    rw [htf]
    dsimp only
    rw [if_neg (by linarith : ¬ x ≤ 0), if_pos hx]
    simp [countField, addError, List.countP_append]
  · intro x htf hx1 hx2
    rw [htf]
    dsimp only
    rw [if_neg (by linarith : ¬ x ≤ 0), if_neg (by linarith : ¬ cfg.max_claim_amount < x),
      if_pos hx1]
    constructor
    · simp [countField, addWarning]
    · simp [countField, addWarning, List.countP_append]
  · intro x htf hx1 hx2
    rw [htf]
    dsimp only
    rw [if_neg (by linarith : ¬ x ≤ 0), if_neg (by linarith : ¬ cfg.max_claim_amount < x),
      if_neg (by linarith : ¬ cfg.manual_review_threshold < x)]
    exact ⟨rfl, rfl⟩

/-- Witness for C8: the spec's example `claim_amount = -100` under the
    default configuration produces exactly one `claim_amount` error. -/
theorem financial_claim_amount_cases_witness :
    countField "claim_amount"
      (validate_financial_information defaultConfig
        [("claim_amount", Value.vNum (-100))] ValidationResult.init).state.errors = 1 := by
  have h := (financial_claim_amount_cases defaultConfig
      [("claim_amount", Value.vNum (-100))] ValidationResult.init
      (Value.vNum (-100)) (by with_unfolding_all decide) (by with_unfolding_all decide)
      (by norm_num [defaultConfig]) (by norm_num [defaultConfig])).2.1 (-100)
      (by with_unfolding_all decide) (by norm_num)
  exact h

theorem toFloat_of_not_truthy {v : Value} {x : ℚ}
    (hv : v.truthy = false) (ht : toFloat v = some x) : x = 0 := by
  cases v with
  | vStr s =>
    exfalso
    have hd : s.data = [] := by
      simpa [Value.truthy, List.isEmpty_iff] using hv
    have hnone : toFloat (Value.vStr s) = none := by
      show parseFloatChars s.data = none
      rw [hd]
      rfl
    rw [hnone] at ht
    exact Option.noConfusion ht
  | vNum q =>
    simp only [Value.truthy, decide_eq_false_iff_not, not_not] at hv
    simp only [toFloat, Option.some.injEq] at ht
    rw [← ht, hv]
  | vBool b =>
    simp only [Value.truthy] at hv
    simp only [toFloat, hv, if_false, Option.some.injEq] at ht
    exact ht.symm
  | vNone => exact Option.noConfusion ht

/-- C9. The round-number fraud indicator is appended by the
    round-number check exactly when `roundCond` holds, and `roundCond` holds
    whenever `claim_amount` coerces to a multiple of 1000 at least 5000
    (falsy values never coerce to such a number); `claim_amount = 10000`
    yields the `round_number` indicator through the full pipeline while
    `claim_amount = 10500` does not. -/
theorem round_number_iff :
    (∀ (v : Value) (r : ValidationResult),
      (round_number_check v r).fraud_indicators.countP
          (fun e => e.indicator == "round_number") =
        r.fraud_indicators.countP (fun e => e.indicator == "round_number") +
          (if roundCond v then 1 else 0)) ∧
    (∀ (v : Value) (x : ℚ), toFloat v = some x → multOf1000 x = true → 5000 ≤ x →
      roundCond v = true) ∧
    roundCond (Value.vNum 10000) = true ∧
    roundCond (Value.vNum 10500) = false ∧
    (validate_claim defaultConfig dummyLibs
        [("claim_amount", Value.vNum 10000)]).fraud_indicators.countP
      (fun e => e.indicator == "round_number") = 1 ∧
    (validate_claim defaultConfig dummyLibs
        [("claim_amount", Value.vNum 10500)]).fraud_indicators.countP
      (fun e => e.indicator == "round_number") = 0 := by
  refine ⟨?_, ?_, by with_unfolding_all decide, by with_unfolding_all decide,
    by with_unfolding_all decide, by with_unfolding_all decide⟩
  · intro v r
    unfold round_number_check roundCond
    by_cases hv : v.truthy = true
    · simp only [hv, if_true, Bool.true_and]
      cases htf : toFloat v with
      | none => simp
      | some x =>
        by_cases hc : (multOf1000 x && decide (5000 ≤ x)) = true <;>
          simp [hc, addFraudIndicator, List.countP_append]
    · simp [hv]
  · intro v x htf hm hx
    unfold roundCond
    by_cases hv : v.truthy = true
    · simp [hv, htf, hm, decide_eq_true hx]
    · exfalso
      have h0 := toFloat_of_not_truthy (Bool.not_eq_true _ ▸ hv) htf
      rw [h0] at hx
      norm_num at hx

/-- Witness for C9: applying the coercion-side implication at the concrete
    amount 10000. -/
theorem round_number_iff_witness : roundCond (Value.vNum 10000) = true := by
  exact round_number_iff.2.1 (Value.vNum 10000) 10000 rfl
    (by with_unfolding_all decide) (by norm_num)

theorem lookup_setCorr (l : List (String × CorrVal)) (k : String) (v : CorrVal) :
    (setCorr l k v).lookup k = some v := by
  unfold setCorr
  induction l with
  | nil => simp [List.lookup]
  | cons p l ih =>
    by_cases hp : (p.1 == k) = true
    · simpa [List.filter_cons, hp] using ih
    · have hk : (k == p.1) = false := by
        rw [beq_eq_false_iff_ne]
        intro h
        rw [beq_iff_eq] at hp
        exact hp h.symm
      rcases p with ⟨pk, pv⟩
      simpa [List.filter_cons, hp, List.lookup, hk] using ih

/-- C6. The date-format loop resolves an ambiguous date by the first
    matching format in the fixed order `%Y-%m-%d`, `%m/%d/%Y`, `%d/%m/%Y`,
    `%Y/%m/%d`: a successful first format wins outright, and a string that
    parses under both slash formats resolves month-first; in particular
    `"01/02/2024"` parses to January 2, 2024, and since its canonical
    rendering `"2024-01-02"` differs from the raw string, the incident-date
    check records exactly that correction whatever the configured clock and
    prior accumulator. -/
theorem date_format_priority :
    (∀ (s : String) (dt : Date), parseYmdDash s = some dt → parseClaimDate s = some dt) ∧
    (∀ (s : String) (d1 d2 : Date), parseYmdDash s = none → parseMdy s = some d1 →
      parseDmy s = some d2 → parseClaimDate s = some d1) ∧
    parseClaimDate "01/02/2024" = some ⟨2024, 1, 2⟩ ∧
    (∀ (cfg : Config) (r : ValidationResult),
      getCorrection (incident_date_check cfg (Value.vStr "01/02/2024") r) "incident_date" =
        some (CorrVal.pair (Value.vStr "01/02/2024") (Value.vStr "2024-01-02"))) := by
  refine ⟨?_, ?_, by with_unfolding_all decide, ?_⟩
  · intro s dt h
    simp [parseClaimDate, h]
  · intro s d1 d2 h0 h1 h2
    simp [parseClaimDate, h0, h1]
  · intro cfg r
    unfold incident_date_check strOnly
    rw [if_pos (by with_unfolding_all decide : (Value.vStr "01/02/2024").truthy = true)]
    dsimp only
    rw [show parseClaimDate "01/02/2024" = some ⟨2024, 1, 2⟩ by with_unfolding_all decide]
    dsimp only
    rw [if_pos
      (by with_unfolding_all decide :
        ("01/02/2024" != formatDate ⟨2024, 1, 2⟩) = true)]
    rw [show formatDate ⟨2024, 1, 2⟩ = "2024-01-02" by with_unfolding_all decide]
    exact lookup_setCorr _ _ _

/-- Witness for C6: the priority implications applied at the ambiguous
    string `"01/02/2024"`, which parses under both slash formats yet
    resolves month-first. -/
theorem date_format_priority_witness :
    parseMdy "01/02/2024" = some ⟨2024, 1, 2⟩ ∧
    parseDmy "01/02/2024" = some ⟨2024, 2, 1⟩ ∧
    parseClaimDate "01/02/2024" = some ⟨2024, 1, 2⟩ := by
  refine ⟨by with_unfolding_all decide, by with_unfolding_all decide, ?_⟩
  exact date_format_priority.2.1 "01/02/2024" ⟨2024, 1, 2⟩ ⟨2024, 2, 1⟩
    (by with_unfolding_all decide) (by with_unfolding_all decide)
    (by with_unfolding_all decide)

/-- C5 counterexample. The incident date `"01/04/2025"` parses under
    the accepted format list of the incident stage (to Saturday, January 4,
    2025 — weekday 5) and the full map is otherwise the spec's minimal valid
    claim, yet `validate_claim` adds no weekend-incident warning and no
    `weekend_incident` risk factor: both weekend checks parse with the
    single format `"%Y-%m-%d"` and swallow the failure. -/
theorem weekend_slash_date_counterexample :
    parseClaimDate "01/04/2025" = some ⟨2025, 1, 4⟩ ∧
    pyWeekday ⟨2025, 1, 4⟩ = 5 ∧
    (validate_claim defaultConfig dummyLibs
        [("claimant_name", Value.vStr "John Doe"),
         ("incident_date", Value.vStr "01/04/2025"),
         ("claim_amount", Value.vNum 500),
         ("incident_description", Value.vStr "Rear-ended at a light")]).warnings.countP
      (fun w => w.field == "incident_timing") = 0 ∧
    riskFactorsOf (validate_claim defaultConfig dummyLibs
        [("claimant_name", Value.vStr "John Doe"),
         ("incident_date", Value.vStr "01/04/2025"),
         ("claim_amount", Value.vNum 500),
         ("incident_description", Value.vStr "Rear-ended at a light")]) = [] := by
  refine ⟨by with_unfolding_all decide, by with_unfolding_all decide,
    by with_unfolding_all decide, by with_unfolding_all decide⟩

theorem truthy_of_parseYmdDash {s : String} {dt : Date}
    (hp : parseYmdDash s = some dt) : (Value.vStr s).truthy = true := by
  by_contra h
  have hd : s.data = [] := by
    simp only [Value.truthy, Bool.not_eq_true] at h
    simpa [List.isEmpty_iff] using h
  unfold parseYmdDash at hp
  rw [hd] at hp
  simp [splitChar] at hp

theorem riskFactorsOf_assess (cfg : Config) (d : ClaimData) (r : ValidationResult) :
    riskFactorsOf (assess_risk cfg d r) =
      (risk_step1 cfg (getVal d "claim_amount") r).1 ++
      (risk_step2 d (risk_step1 cfg (getVal d "claim_amount") r).2).1 ++
      (risk_step3 cfg (getVal d "vehicle_year")
        (risk_step2 d (risk_step1 cfg (getVal d "claim_amount") r).2).2).1 ++
      (risk_step4 (getVal d "incident_date")
        (risk_step3 cfg (getVal d "vehicle_year")
          (risk_step2 d (risk_step1 cfg (getVal d "claim_amount") r).2).2).2).1 := by
  simp only [riskFactorsOf, getCorrection, assess_risk]
  rw [lookup_setCorr]

/-- C5 amended. Only a canonical `YYYY-MM-DD` incident-date string is
    weekend-checked: for every field map whose `incident_date` is a string
    parsing under `"%Y-%m-%d"` to a Saturday or Sunday, the business-rule
    stage adds the weekend-incident warning and the risk-assessment stage
    records the `weekend_incident` factor (its +0.05 contribution); strings
    in the other accepted formats — such as `"01/04/2025"`, a Saturday —
    trigger neither, because both weekend checks parse only `"%Y-%m-%d"`. -/
theorem weekend_checks_amended (cfg : Config) (d : ClaimData) (r : ValidationResult)
    (s : String) (dt : Date) (hv : getVal d "incident_date" = Value.vStr s)
    (hp : parseYmdDash s = some dt) (hw : pyWeekday dt ≥ 5) :
    (⟨"incident_timing", "Incident occurred on weekend"⟩ : FieldMessage) ∈
      (validate_business_rules d r).state.warnings ∧
    "weekend_incident" ∈ riskFactorsOf (assess_risk cfg d r) := by
  have ht := truthy_of_parseYmdDash hp
  constructor
  · have hwk : weekend_rule_check (getVal d "incident_date") r =
        addWarning r "incident_timing" "Incident occurred on weekend" := by
      unfold weekend_rule_check strOnly
      rw [hv, if_pos ht]
      dsimp only
      rw [hp]
      dsimp only
      rw [if_pos hw]
    have hmem : (⟨"incident_timing", "Incident occurred on weekend"⟩ : FieldMessage) ∈
        (weekend_rule_check (getVal d "incident_date") r).warnings := by
      rw [hwk]
      simp [addWarning]
    unfold validate_business_rules
    simp only [Res.andThen]
    rcases getVal d "incident_location" with ls | lx | lb | _ <;>
      unfold strGuard <;> split_ifs <;> dsimp only [Res.state] <;>
      (try split) <;>
      simp [addWarning, hmem]
  · have h4 : ∀ rr : ValidationResult,
        (risk_step4 (getVal d "incident_date") rr).1 = ["weekend_incident"] := by
      intro rr
      unfold risk_step4
      rw [hv, if_pos ht]
      dsimp only
      rw [hp]
      dsimp only
      rw [if_pos hw]
    rw [riskFactorsOf_assess, h4]
    simp

/-- Witness for C5's amended theorem: the canonical string `"2025-01-04"`
    (Saturday, January 4, 2025) triggers both the warning and the
    `weekend_incident` factor. -/
theorem weekend_checks_amended_witness :
    (⟨"incident_timing", "Incident occurred on weekend"⟩ : FieldMessage) ∈
      (validate_business_rules [("incident_date", Value.vStr "2025-01-04")]
        ValidationResult.init).state.warnings ∧
    "weekend_incident" ∈ riskFactorsOf (assess_risk defaultConfig
      [("incident_date", Value.vStr "2025-01-04")] ValidationResult.init) := by
  exact weekend_checks_amended defaultConfig
    [("incident_date", Value.vStr "2025-01-04")] ValidationResult.init
    "2025-01-04" ⟨2025, 1, 4⟩ (by with_unfolding_all decide)
    (by with_unfolding_all decide) (by with_unfolding_all decide)
